import Mathlib

/-!
Verification of the Atlas metadata proxy (metadata_service/proxy/atlas_proxy.py)
of the amundsen metadata library.

The proxy translates raw graph records of an Apache Atlas backend into the
canonical domain model (Table, Column, Tag, PopularTable, TagDetail).  Raw
records are schema-less Python dictionaries; they are embedded here as the
JSON-like type JVal.  The backend driver (the external atlasclient library) is
embedded as a structure of functions returning Except values: an exception
raised by a driver call is an error value of type DriverExc.  Every proxy
operation is a pure function of the driver and its arguments, returning
Except ProxyError; mutating operations return the update command they issue
so that write scoping can be stated.

Shape conflations of the dynamic language, none of which is reachable from
the statements proved below (all inputs there are well-formed dictionaries):
indexing a non-dictionary value (a Python TypeError) is modelled as a missing
key, iterating a non-list is modelled as the empty iteration, and item
assignment on a non-dictionary is modelled as a no-op.
-/

namespace Amundsen

/-- Association list over string keys, used to embed Python dictionaries.
Insertion keeps keys unique, so lookup of the first match agrees with the
Python dictionary. -/
def lookupA {β : Type} : List (String × β) → String → Option β
  | [], _ => none
  | (k', v) :: rest, k => if k' = k then some v else lookupA rest k

/-- Item assignment of a Python dictionary: replace the value of an existing
key in place, or append a new binding. -/
def setAssoc {β : Type} : List (String × β) → String → β → List (String × β)
  | [], k, v => [(k, v)]
  | (k', v') :: rest, k, v =>
      if k' = k then (k, v) :: rest else (k', v') :: setAssoc rest k v

/-- JSON-like values, embedding the schema-less Python dictionaries that hold
raw Atlas entities. -/
inductive JVal where
  | null : JVal
  | str : String → JVal
  | int : Int → JVal
  | arr : List JVal → JVal
  | obj : List (String × JVal) → JVal

/-- Python d[k] and d.get(k): the value at a key of a dictionary. -/
def JVal.getKey : JVal → String → Option JVal
  | .obj fields, k => lookupA fields k
  | _, _ => none

/-- Python d.get(k, default): lookup with a default. -/
def JVal.getD (j : JVal) (k : String) (d : JVal) : JVal :=
  (j.getKey k).getD d

/-- Python d[k] = v: item assignment on a dictionary. -/
def JVal.setKey : JVal → String → JVal → JVal
  | .obj fields, k, v => .obj (setAssoc fields k v)
  | j, _, _ => j

/-- Python truthiness of a value. -/
def JVal.isTruthy : JVal → Bool
  | .null => false
  | .str s => !s.isEmpty
  | .int n => n != 0
  | .arr xs => !xs.isEmpty
  | .obj fs => !fs.isEmpty

/-- Python a or b: the left operand when truthy, otherwise the right one. -/
def JVal.pyOr (a b : JVal) : JVal :=
  if a.isTruthy then a else b

/-- Iteration over a value: the elements of a list, nothing otherwise. -/
def JVal.asList : JVal → List JVal
  | .arr xs => xs
  | _ => []

/-- The string carried by a value, if it is one. -/
def JVal.asStr : JVal → Option String
  | .str s => some s
  | _ => none

/-- Modelled from the spec: the Tag value object of the domain model
(entity/table_detail.py is not part of the sources); a labeled annotation
with a name and a categorical type. Fields hold the raw values the proxy
passes in. -/
structure Tag where
  tag_name : JVal
  tag_type : String

/-- Modelled from the spec: the User value object of the domain model, an
owner identified by email. -/
structure User where
  email : JVal

/-- Modelled from the spec: the Column value object of the domain model with
name, optional description, type name and sort order. -/
structure Column where
  name : JVal
  description : JVal
  col_type : JVal
  sort_order : JVal

/-- Modelled from the spec: the Table value object of the domain model; the
(database, cluster, schema, name) strings form the external identity. -/
structure Table where
  database : String
  cluster : String
  schema : String
  name : String
  tags : List Tag
  description : JVal
  owners : List User
  columns : List Column
  last_updated_timestamp : JVal

/-- Modelled from the spec: the PopularTable value object, a reduced
projection of Table used for catalog browsing. -/
structure PopularTable where
  database : String
  cluster : JVal
  schema : JVal
  name : JVal
  description : JVal

/-- Modelled from the spec: the TagDetail value object with a tag name and a
usage count. -/
structure TagDetail where
  tag_name : String
  tag_count : Nat

/-- An exception raised by a backend driver call: either the atlasclient
BadRequest or any other exception. -/
inductive DriverExc where
  | badRequest (msg : String)
  | other (msg : String)

/-- An error surfaced by a proxy operation: NotFoundException, the
atlasclient BadRequest, a Python KeyError escaping the operation, or any
other uncaught exception. -/
inductive ProxyError where
  | notFound (msg : String)
  | badRequest (msg : String)
  | keyError (msg : String)
  | other (msg : String)

/-- The error kinds distinguishable by a caller (the exception classes). -/
inductive ErrKind where
  | notFound
  | badRequest
  | keyError
  | otherExc
deriving DecidableEq

/-- The kind (exception class) of a proxy error. -/
def ProxyError.kind : ProxyError → ErrKind
  | .notFound _ => .notFound
  | .badRequest _ => .badRequest
  | .keyError _ => .keyError
  | .other _ => .otherExc

/-- A driver exception propagating uncaught out of a proxy operation. -/
def DriverExc.toProxy : DriverExc → ProxyError
  | .badRequest m => .badRequest m
  | .other m => .other m

/-- The response of the driver call entity_guid: the raw entity dictionary
plus the referredEntities map (guid to entity dictionary). -/
structure EntityResponse where
  entity : JVal
  referredEntities : List (String × JVal)

/-- A search result entity: a typeName and an attribute dictionary. -/
structure SearchEntity where
  typeName : String
  attributes : JVal

/-- The collection returned by search_basic.create. -/
structure SearchCollection where
  entities : List SearchEntity

/-- An entity delivered by the bulk fetch entity_bulk: a guid and an
attribute dictionary. -/
structure BulkEntity where
  guid : String
  attributes : JVal

/-- One batch of entities yielded by the entity_bulk collection. -/
structure EntityBatch where
  entities : List BulkEntity

/-- The parameter dictionary passed to search_basic.create. -/
structure SearchParams where
  typeName : String
  excludeDeletedEntities : Bool
  attributes : List String

/-- The payload of entity_bulk_classification.create. -/
structure BulkClassificationData where
  typeName : String
  entityGuids : List JVal

/-- A classification type definition of the backend. -/
structure ClassificationDef where
  name : String

/-- A backend type definition holding classification definitions. -/
structure TypeDef where
  classificationDefs : List ClassificationDef

/-- The backend driver (the external atlasclient), embedded as the
capability set the proxy uses; each call either returns or raises. -/
structure Driver where
  entity_guid : JVal → Except DriverExc EntityResponse
  entity_bulk : List String → Except DriverExc (List EntityBatch)
  search_basic_create : SearchParams → Except DriverExc SearchCollection
  entity_bulk_classification_create : BulkClassificationData → Except DriverExc Unit
  classification_delete : JVal → String → Except DriverExc Unit
  typedefs : Except DriverExc (List TypeDef)

/-- The static backend-schema configuration (attribute-name constants read
from app.config at startup). -/
structure AtlasConfig where
  TABLE_ENTITY : String
  DB_ATTRIBUTE : String
  NAME_ATTRIBUTE : String

/-- The additional table information (entity, db, cluster, name) supplied by
the caller of get_table. -/
structure TableInfo where
  entity : String
  cluster : String
  db : String
  name : String

/-- An update command issued to the backend: the (locally mutated) entity
payload and the attribute scope (update(attribute=a) versus a full
update()). -/
structure UpdateCmd where
  entity : JVal
  attributeScope : Option String

/-- AtlasProxy._get_table_entity: fetch the entity by id; any driver
exception becomes NotFoundException. -/
def _get_table_entity (d : Driver) (table_id : String) : Except ProxyError EntityResponse :=
  match d.entity_guid (.str table_id) with
  | .ok e => .ok e
  | .error _ =>
      .error (.notFound ("Table GUID( " ++ table_id ++ " ) does not exist"))

/-- AtlasProxy._get_column: fetch the column entity by id; any driver
exception becomes NotFoundException. -/
def _get_column (d : Driver) (column_id : String) : Except ProxyError EntityResponse :=
  match d.entity_guid (.str column_id) with
  | .ok e => .ok e
  | .error _ => .error (.notFound ("Column not found: " ++ column_id))

/-- The Tag built for one classification entry in get_table. -/
def mkTag (classification : JVal) : Tag :=
  { tag_name := (classification.getKey "typeName").getD .null
  , tag_type := "default" }

/-- One iteration of the columns loop of get_table: column[guid] and
referredEntities[guid] and col_entity[attributes] each raise KeyError when
missing (None result). -/
def buildColumn (cfg : AtlasConfig) (referred : List (String × JVal)) (column : JVal) :
    Option Column :=
  match (column.getKey "guid").bind JVal.asStr with
  | none => none
  | some guid =>
    match lookupA referred guid with
    | none => none
    | some col_entity =>
      match col_entity.getKey "attributes" with
      | none => none
      | some col_attrs =>
        some { name := col_attrs.getD cfg.NAME_ATTRIBUTE .null
             , description := col_attrs.getD "description" .null
             , col_type := (col_attrs.getD "type" .null).pyOr (col_attrs.getD "dataType" .null)
             , sort_order := col_attrs.getD "position" .null }

/-- The columns loop of get_table over the relationship column references,
in list order; the first KeyError aborts the loop. -/
def buildColumns (cfg : AtlasConfig) (referred : List (String × JVal)) :
    List JVal → Option (List Column)
  | [] => some []
  | c :: cs =>
    match buildColumn cfg referred c, buildColumns cfg referred cs with
    | some col, some cols => some (col :: cols)
    | _, _ => none

/-- The try block of get_table: extract tags, columns and attributes from
the fetched entity; a KeyError yields none. -/
def table_from_entity (cfg : AtlasConfig) (info : TableInfo) (te : EntityResponse) :
    Option Table :=
  match te.entity.getKey "attributes" with
  | none => none
  | some attrs =>
    match te.entity.getKey "relationshipAttributes" with
    | none => none
    | some rel_attrs =>
      let tags := (((te.entity.getD "classifications" .null).pyOr (.arr [])).asList).map mkTag
      let colRefs := ((rel_attrs.getD "columns" .null).pyOr (.arr [])).asList
      match buildColumns cfg te.referredEntities colRefs with
      | none => none
      | some columns =>
        some { database := info.entity
             , cluster := info.cluster
             , schema := info.db
             , name := info.name
             , tags := tags
             , description := attrs.getD "description" .null
             , owners := [{ email := attrs.getD "owner" .null }]
             , columns := columns
             , last_updated_timestamp := te.entity.getD "updateTime" .null }

/-- AtlasProxy.get_table: fetch the entity, translate it; a KeyError in the
try block becomes the BadRequest about missing required attributes. -/
def get_table (cfg : AtlasConfig) (d : Driver) (table_id : String) (info : TableInfo) :
    Except ProxyError Table :=
  match _get_table_entity d table_id with
  | .error e => .error e
  | .ok te =>
    match table_from_entity cfg info te with
    | some t => .ok t
    | none =>
        .error (.badRequest ("Some of the required attributes are missing in : ( "
                             ++ table_id ++ " )"))

/-- AtlasProxy.get_table_description: the description attribute of the
fetched entity. -/
def get_table_description (d : Driver) (table_id : String) : Except ProxyError JVal :=
  match _get_table_entity d table_id with
  | .error e => .error e
  | .ok ent =>
    match ent.entity.getKey "attributes" with
    | none => .error (.keyError "attributes")
    | some attrs => .ok (attrs.getD "description" .null)

/-- AtlasProxy.put_table_description: set the description attribute locally
and issue an unscoped update. -/
def put_table_description (d : Driver) (table_id descr : String) :
    Except ProxyError UpdateCmd :=
  match _get_table_entity d table_id with
  | .error e => .error e
  | .ok ent =>
    match ent.entity.getKey "attributes" with
    | none => .error (.keyError "attributes")
    | some attrs =>
      .ok { entity := ent.entity.setKey "attributes" (attrs.setKey "description" (.str descr))
          , attributeScope := none }

/-- AtlasProxy.add_owner: overwrite the owner attribute and issue an
unscoped update. -/
def add_owner (d : Driver) (table_id owner : String) : Except ProxyError UpdateCmd :=
  match _get_table_entity d table_id with
  | .error e => .error e
  | .ok ent =>
    match ent.entity.getKey "attributes" with
    | none => .error (.keyError "attributes")
    | some attrs =>
      .ok { entity := ent.entity.setKey "attributes" (attrs.setKey "owner" (.str owner))
          , attributeScope := none }

/-- AtlasProxy.add_tag: build the bulk classification payload from the
entity guid and issue the create call. -/
def add_tag (d : Driver) (table_id tag : String) :
    Except ProxyError BulkClassificationData :=
  match _get_table_entity d table_id with
  | .error e => .error e
  | .ok ent =>
    match ent.entity.getKey "guid" with
    | none => .error (.keyError "guid")
    | some g =>
      let data : BulkClassificationData := { typeName := tag, entityGuids := [g] }
      match d.entity_bulk_classification_create data with
      | .error e => .error e.toProxy
      | .ok _ => .ok data

/-- The body of the try block of delete_tag: fetch the table entity, fetch
it again by its guid, delete the classification. -/
def delete_tag_attempt (d : Driver) (table_id tag : String) : Except ProxyError Unit :=
  match _get_table_entity d table_id with
  | .error e => .error e
  | .ok ent =>
    match ent.entity.getKey "guid" with
    | none => .error (.keyError "guid")
    | some g =>
      match d.entity_guid g with
      | .error e => .error e.toProxy
      | .ok guid_entity =>
        match d.classification_delete guid_entity.entity tag with
        | .error e => .error e.toProxy
        | .ok _ => .ok ()

/-- AtlasProxy.delete_tag: the whole body runs under except Exception, which
logs and returns normally. -/
def delete_tag (d : Driver) (table_id tag : String) : Except ProxyError Unit :=
  match delete_tag_attempt d table_id tag with
  | .ok _ => .ok ()
  | .error _ => .ok ()

/-- AtlasProxy.put_column_description: set the description attribute locally
and issue an update scoped to the description attribute. -/
def put_column_description (d : Driver) (column_id descr : String) :
    Except ProxyError UpdateCmd :=
  match _get_column d column_id with
  | .error e => .error e
  | .ok ent =>
    match ent.entity.getKey "attributes" with
    | none => .error (.keyError "attributes")
    | some attrs =>
      .ok { entity := ent.entity.setKey "attributes" (attrs.setKey "description" (.str descr))
          , attributeScope := some "description" }

/-- AtlasProxy.get_column_description: the description attribute of the
fetched column entity. -/
def get_column_description (d : Driver) (column_id : String) : Except ProxyError JVal :=
  match _get_column d column_id with
  | .error e => .error e
  | .ok ent =>
    match ent.entity.getKey "attributes" with
    | none => .error (.keyError "attributes")
    | some attrs => .ok (attrs.getD "description" .null)

/-- The loop of _get_rel_attributes_dict collecting the relational attribute
guids of the search results, in result order, appending without removing
duplicates; falsy guids are skipped. -/
def rel_attribute_ids (attrName : String) (entities : List SearchEntity) : List String :=
  entities.filterMap fun e =>
    match (e.attributes.getD attrName (.obj [])).getKey "guid" with
    | some v => if v.isTruthy then v.asStr else none
    | none => none

/-- The dictionary comprehension over one batch of bulk entities, keyed by
guid (later duplicates overwrite earlier ones, as in a Python dict). -/
def batch_dict (b : EntityBatch) : List (String × BulkEntity) :=
  b.entities.foldl (fun acc re => setAssoc acc re.guid re) []

/-- The loop of _get_rel_attributes_dict over the bulk collection: each
batch rebinds the dictionary, replacing the previous one. -/
def batches_to_dict (batches : List EntityBatch) : List (String × BulkEntity) :=
  batches.foldl (fun _ b => batch_dict b) []

/-- AtlasProxy._get_rel_attributes_dict: one bulk fetch of the collected
guids, then the batch loop. -/
def _get_rel_attributes_dict (d : Driver) (entities : List SearchEntity)
    (attrName : String) : Except DriverExc (List (String × BulkEntity)) :=
  (d.entity_bulk (rel_attribute_ids attrName entities)).map batches_to_dict

/-- The search parameter dictionary built by get_popular_tables. -/
def popular_search_params (cfg : AtlasConfig) : SearchParams :=
  { typeName := cfg.TABLE_ENTITY
  , excludeDeletedEntities := true
  , attributes := [cfg.DB_ATTRIBUTE] }

/-- The database guid referenced by a search result, as read in the
popular-tables loop. -/
def db_guid_of (attrName : String) (e : SearchEntity) : Option String :=
  ((e.attributes.getD attrName (.obj [])).getKey "guid").bind JVal.asStr

/-- One iteration of the popular-tables loop: resolve the database through
the dictionary, or fall back to empty cluster and schema. -/
def mkPopularTable (cfg : AtlasConfig) (dbs_dict : List (String × BulkEntity))
    (e : SearchEntity) : PopularTable :=
  match (db_guid_of cfg.DB_ATTRIBUTE e).bind (fun g => lookupA dbs_dict g) with
  | some db_entity =>
      { database := e.typeName
      , cluster := db_entity.attributes.getD "clusterName" .null
      , schema := db_entity.attributes.getD cfg.NAME_ATTRIBUTE .null
      , name := e.attributes.getD cfg.NAME_ATTRIBUTE .null
      , description := e.attributes.getD "description" .null }
  | none =>
      { database := e.typeName
      , cluster := .str ""
      , schema := .str ""
      , name := e.attributes.getD cfg.NAME_ATTRIBUTE .null
      , description := e.attributes.getD "description" .null }

/-- AtlasProxy.get_popular_tables: search for all table entities (num_entries
is accepted but unused), resolve databases through one bulk fetch, build one
PopularTable per result.  The second component of the result records the
guid-list argument of each entity_bulk call issued, so that the number of
bulk calls and their arguments can be stated. -/
def get_popular_tables (cfg : AtlasConfig) (d : Driver) (num_entries : Nat) :
    Except ProxyError (List PopularTable × List (List String)) :=
  match d.search_basic_create (popular_search_params cfg) with
  | .error (.badRequest _) =>
      .error (.badRequest "Unable to fetch popular tables. Please check your configurations.")
  | .error (.other m) => .error (.other m)
  | .ok coll =>
      match _get_rel_attributes_dict d coll.entities cfg.DB_ATTRIBUTE with
      | .error e => .error e.toProxy
      | .ok dbs_dict =>
          .ok (coll.entities.map (mkPopularTable cfg dbs_dict),
               [rel_attribute_ids cfg.DB_ATTRIBUTE coll.entities])

/-- AtlasProxy.get_tags: one TagDetail per classification definition, with
the placeholder count 0. -/
def get_tags (d : Driver) : Except ProxyError (List TagDetail) :=
  match d.typedefs with
  | .error e => .error e.toProxy
  | .ok defs =>
      .ok ((defs.map (fun td => td.classificationDefs.map
            (fun c => TagDetail.mk c.name 0))).flatten)

/-- Modelled from the spec: the update-entity-attribute capability of the
backend driver (the atlasclient library is not part of the sources).  An
unscoped update stores the full payload; an update scoped to attribute a
replaces only attribute a of the stored entity with the value the payload
carries for it. -/
def applyUpdate (stored : JVal) (cmd : UpdateCmd) : JVal :=
  match cmd.attributeScope with
  | none => cmd.entity
  | some a =>
    match (cmd.entity.getKey "attributes").bind (fun at_ => at_.getKey a) with
    | some v =>
        stored.setKey "attributes" (((stored.getKey "attributes").getD (.obj [])).setKey a v)
    | none => stored

/-- Whether a proxy result is the NotFoundException. -/
def resultIsNotFound {α : Type} : Except ProxyError α → Bool
  | .error (ProxyError.notFound _) => true
  | _ => false

/-- Whether a proxy result is any error. -/
def isError {α : Type} : Except ProxyError α → Bool
  | .error _ => true
  | .ok _ => false

/-- The error kind of a proxy result, when it is an error. -/
def errKind {α : Type} : Except ProxyError α → Option ErrKind
  | .error e => some e.kind
  | .ok _ => none

/-- Looking up the key just assigned yields the assigned value. -/
theorem lookupA_setAssoc_self {β : Type} (l : List (String × β)) (k : String) (v : β) :
    lookupA (setAssoc l k v) k = some v := by
  induction l with
  | nil => simp [setAssoc, lookupA]
  | cons p rest ih =>
      by_cases h : p.1 = k
      · simp [setAssoc, h, lookupA]
      · simp [setAssoc, h, lookupA, ih]

/-- Assigning one key leaves the lookup of every other key unchanged. -/
theorem lookupA_setAssoc_ne {β : Type} (l : List (String × β)) (k k' : String) (v : β)
    (h : k' ≠ k) : lookupA (setAssoc l k v) k' = lookupA l k' := by
  have hkk : ¬ k = k' := fun hh => h hh.symm
  induction l with
  | nil => simp [setAssoc, lookupA, hkk]
  | cons p rest ih =>
      by_cases hp : p.1 = k
      · simp [setAssoc, hp, lookupA, hkk]
      · simp [setAssoc, hp, lookupA, ih]

/-- Item assignment on a key leaves every other key of a value unchanged. -/
theorem getKey_setKey_ne (e : JVal) (k k' : String) (v : JVal) (h : k' ≠ k) :
    (e.setKey k v).getKey k' = e.getKey k' := by
  cases e with
  | obj fields => simp [JVal.setKey, JVal.getKey, lookupA_setAssoc_ne _ _ _ _ h]
  | null => rfl
  | str _ => rfl
  | int _ => rfl
  | arr _ => rfl

/-- Item assignment on a dictionary stores the assigned value. -/
theorem getKey_setKey_self_obj (fields : List (String × JVal)) (k : String) (v : JVal) :
    ((JVal.obj fields).setKey k v).getKey k = some v := by
  simp [JVal.setKey, JVal.getKey, lookupA_setAssoc_self]

/-- A value with a successful key lookup is a dictionary. -/
theorem exists_obj_of_getKey (e : JVal) (k : String) (v : JVal)
    (h : e.getKey k = some v) : ∃ fields, e = JVal.obj fields := by
  cases e with
  | obj fields => exact ⟨fields, rfl⟩
  | null => simp [JVal.getKey] at h
  | str _ => simp [JVal.getKey] at h
  | int _ => simp [JVal.getKey] at h
  | arr _ => simp [JVal.getKey] at h

/-- The columns loop yields one Column per reference. -/
theorem buildColumns_length (cfg : AtlasConfig) (referred : List (String × JVal))
    (l : List JVal) (cols : List Column)
    (h : buildColumns cfg referred l = some cols) : cols.length = l.length := by
  induction l generalizing cols with
  | nil => simp [buildColumns] at h; simp [← h]
  | cons c cs ih =>
      simp only [buildColumns] at h
      cases hc : buildColumn cfg referred c with
      | none => rw [hc] at h; simp at h
      | some col =>
          cases hcs : buildColumns cfg referred cs with
          | none => rw [hc, hcs] at h; simp at h
          | some rest =>
              rw [hc, hcs] at h
              simp at h
              simp [← h, List.length_cons, ih rest hcs]

/-- The columns loop resolves the references elementwise, in list order. -/
theorem buildColumns_get (cfg : AtlasConfig) (referred : List (String × JVal))
    (l : List JVal) (cols : List Column)
    (h : buildColumns cfg referred l = some cols) :
    ∀ i (hi : i < l.length) (hi' : i < cols.length),
      buildColumn cfg referred (l.get ⟨i, hi⟩) = some (cols.get ⟨i, hi'⟩) := by
  induction l generalizing cols with
  | nil => intro i hi; simp at hi
  | cons c cs ih =>
      simp only [buildColumns] at h
      cases hc : buildColumn cfg referred c with
      | none => rw [hc] at h; simp at h
      | some col =>
          cases hcs : buildColumns cfg referred cs with
          | none => rw [hc, hcs] at h; simp at h
          | some rest =>
              rw [hc, hcs] at h
              simp at h
              intro i hi hi'
              subst h
              cases i with
              | zero => simpa using hc
              | succ j =>
                  simp only [List.get]
                  exact ih rest hcs j (by simpa using hi) (by simpa using hi')

/-- delete_tag returns normally whatever its try block does. -/
theorem delete_tag_returns_ok (d : Driver) (table_id tag : String) :
    delete_tag d table_id tag = .ok () := by
  unfold delete_tag
  cases delete_tag_attempt d table_id tag <;> rfl

/-- The batch loop keeps only the dictionary of the final batch. -/
theorem batches_to_dict_concat (bs : List EntityBatch) (b : EntityBatch) :
    batches_to_dict (bs ++ [b]) = batch_dict b := by
  simp [batches_to_dict, List.foldl_append]

/-- A sample configuration, as the test configuration sets it. -/
def cfg0 : AtlasConfig :=
  { TABLE_ENTITY := "Table", DB_ATTRIBUTE := "db", NAME_ATTRIBUTE := "qualifiedName" }

/-- Sample caller-side naming context for get_table. -/
def info0 : TableInfo :=
  { entity := "TEST_ENTITY", cluster := "TEST_CLUSTER", db := "TEST_DB", name := "TEST_TABLE" }

/-- A driver whose every call raises. -/
def failDriver : Driver :=
  { entity_guid := fun _ => .error (.other "Boom")
  , entity_bulk := fun _ => .error (.other "Boom")
  , search_basic_create := fun _ => .error (.badRequest "Boom")
  , entity_bulk_classification_create := fun _ => .error (.other "Boom")
  , classification_delete := fun _ _ => .error (.other "Boom")
  , typedefs := .error (.other "Boom") }

/-- A driver that resolves entities but whose classification delete always
raises, as the backend quirk behind delete_tag does. -/
def delFailDriver : Driver :=
  { entity_guid := fun _ =>
      .ok { entity := .obj [("guid", .str "g1")], referredEntities := [] }
  , entity_bulk := fun _ => .ok []
  , search_basic_create := fun _ => .ok { entities := [] }
  , entity_bulk_classification_create := fun _ => .ok ()
  , classification_delete := fun _ _ => .error (.other "always raises")
  , typedefs := .ok [] }

/-- C2: for every table or column identifier whose backend fetch-by-id call
raises any exception, get_table, get_table_description,
put_table_description, get_column_description and put_column_description
each fail with NotFoundException and never with a different error kind. -/
theorem claim2_fetch_failure_is_not_found (cfg : AtlasConfig) (d : Driver)
    (ident descr : String) (info : TableInfo) (exc : DriverExc)
    (h : d.entity_guid (.str ident) = .error exc) :
    resultIsNotFound (get_table cfg d ident info) = true ∧
    resultIsNotFound (get_table_description d ident) = true ∧
    resultIsNotFound (put_table_description d ident descr) = true ∧
    resultIsNotFound (get_column_description d ident) = true ∧
    resultIsNotFound (put_column_description d ident descr) = true := by
  refine ⟨?_, ?_, ?_, ?_, ?_⟩ <;>
    simp [get_table, get_table_description, put_table_description,
          get_column_description, put_column_description,
          _get_table_entity, _get_column, h, resultIsNotFound]

/-- Witness for C2 at a concrete always-raising driver. -/
theorem claim2_fetch_failure_is_not_found_witness :
    resultIsNotFound (get_table cfg0 failDriver "id1" info0) = true ∧
    resultIsNotFound (get_table_description failDriver "id1") = true ∧
    resultIsNotFound (put_table_description failDriver "id1" "descr") = true ∧
    resultIsNotFound (get_column_description failDriver "id1") = true ∧
    resultIsNotFound (put_column_description failDriver "id1" "descr") = true :=
  claim2_fetch_failure_is_not_found cfg0 failDriver "id1" "descr" info0
    (.other "Boom") rfl

/-- C9: delete_tag raises no exception for any input: its catch-all also
swallows the NotFoundException of an unknown table identifier, so the call
returns normally and never surfaces NotFound. -/
theorem claim9_delete_tag_never_raises (d : Driver) (table_id tag : String) :
    delete_tag d table_id tag = .ok () ∧
    resultIsNotFound (delete_tag d table_id tag) = false := by
  refine ⟨delete_tag_returns_ok d table_id tag, ?_⟩
  rw [delete_tag_returns_ok d table_id tag]
  rfl

/-- C6: delete_tag, and delete_tag only, treats a backend exception as
non-fatal and returns normally; every other proxy operation surfaces an
error when its backend call raises. -/
theorem claim6_delete_tag_only_swallow :
    (∀ (d : Driver) (table_id tag : String), delete_tag d table_id tag = .ok ()) ∧
    (∀ (cfg : AtlasConfig) (d : Driver) (ident descr tag : String) (info : TableInfo)
       (exc : DriverExc), d.entity_guid (.str ident) = .error exc →
       isError (get_table cfg d ident info) = true ∧
       isError (get_table_description d ident) = true ∧
       isError (put_table_description d ident descr) = true ∧
       isError (add_owner d ident descr) = true ∧
       isError (add_tag d ident tag) = true ∧
       isError (get_column_description d ident) = true ∧
       isError (put_column_description d ident descr) = true) ∧
    (∀ (cfg : AtlasConfig) (d : Driver) (n : Nat) (exc : DriverExc),
       d.search_basic_create (popular_search_params cfg) = .error exc →
       isError (get_popular_tables cfg d n) = true) ∧
    (∀ (d : Driver) (exc : DriverExc), d.typedefs = .error exc →
       isError (get_tags d) = true) := by
  refine ⟨delete_tag_returns_ok, ?_, ?_, ?_⟩
  · intro cfg d ident descr tag info exc h
    refine ⟨?_, ?_, ?_, ?_, ?_, ?_, ?_⟩ <;>
      simp [get_table, get_table_description, put_table_description, add_owner,
            add_tag, get_column_description, put_column_description,
            _get_table_entity, _get_column, h, isError]
  · intro cfg d n exc h
    cases exc <;> simp [get_popular_tables, h, isError]
  · intro d exc h
    simp [get_tags, h, isError]

/-- Witness for C6: delete_tag returns normally although its classification
delete raises, while the other operations surface errors on backend
failures. -/
theorem claim6_delete_tag_only_swallow_witness :
    delete_tag delFailDriver "t1" "PII" = .ok () ∧
    isError (get_table cfg0 failDriver "t1" info0) = true ∧
    isError (get_popular_tables cfg0 failDriver 10) = true ∧
    isError (get_tags failDriver) = true :=
  ⟨claim6_delete_tag_only_swallow.1 delFailDriver "t1" "PII",
   (claim6_delete_tag_only_swallow.2.1 cfg0 failDriver "t1" "d" "PII" info0
      (.other "Boom") rfl).1,
   claim6_delete_tag_only_swallow.2.2.1 cfg0 failDriver 10 (.badRequest "Boom") rfl,
   claim6_delete_tag_only_swallow.2.2.2 failDriver (.other "Boom") rfl⟩

/-- A successfully translated Table carries exactly the caller-supplied
naming context in its identity fields. -/
theorem table_from_entity_identity (cfg : AtlasConfig) (info : TableInfo)
    (te : EntityResponse) (t : Table) (h : table_from_entity cfg info te = some t) :
    t.database = info.entity ∧ t.cluster = info.cluster ∧
    t.schema = info.db ∧ t.name = info.name := by
  unfold table_from_entity at h
  split at h
  · simp at h
  · split at h
    · simp at h
    · dsimp only at h
      split at h
      · simp at h
      · injection h with h
        subst h
        exact ⟨rfl, rfl, rfl, rfl⟩

/-- The translation of get_table never reads the top-level guid of the
entity. -/
theorem table_from_entity_guid_free (cfg : AtlasConfig) (info : TableInfo)
    (e : JVal) (referred : List (String × JVal)) (g : JVal) :
    table_from_entity cfg info { entity := e.setKey "guid" g, referredEntities := referred } =
    table_from_entity cfg info { entity := e, referredEntities := referred } := by
  unfold table_from_entity
  simp only [JVal.getD,
    getKey_setKey_ne e "guid" "attributes" g (by decide),
    getKey_setKey_ne e "guid" "relationshipAttributes" g (by decide),
    getKey_setKey_ne e "guid" "classifications" g (by decide),
    getKey_setKey_ne e "guid" "updateTime" g (by decide)]

/-- A driver returning one fixed entity for every fetch; all its other
capabilities succeed trivially. -/
def singleEntityDriver (e : JVal) (referred : List (String × JVal)) : Driver :=
  { entity_guid := fun _ => .ok { entity := e, referredEntities := referred }
  , entity_bulk := fun _ => .ok []
  , search_basic_create := fun _ => .ok { entities := [] }
  , entity_bulk_classification_create := fun _ => .ok ()
  , classification_delete := fun _ _ => .ok ()
  , typedefs := .ok [] }

/-- C8: a successful get_table carries exactly the entity, cluster, db and
name entries of the caller-supplied table_info in its database, cluster,
schema and name fields, and its result never depends on the backend guid of
the entity. -/
theorem claim8_identity_from_info_no_guid :
    (∀ (cfg : AtlasConfig) (d : Driver) (table_id : String) (info : TableInfo) (t : Table),
       get_table cfg d table_id info = .ok t →
       t.database = info.entity ∧ t.cluster = info.cluster ∧
       t.schema = info.db ∧ t.name = info.name) ∧
    (∀ (cfg : AtlasConfig) (e : JVal) (referred : List (String × JVal)) (g : JVal)
       (table_id : String) (info : TableInfo),
       get_table cfg (singleEntityDriver (e.setKey "guid" g) referred) table_id info =
       get_table cfg (singleEntityDriver e referred) table_id info) := by
  constructor
  · intro cfg d table_id info t h
    unfold get_table at h
    split at h
    · simp at h
    · rename_i te _
      cases htf : table_from_entity cfg info te with
      | none => rw [htf] at h; simp at h
      | some t' =>
          rw [htf] at h
          injection h with h
          subst h
          exact table_from_entity_identity cfg info te t' htf
  · intro cfg e referred g table_id info
    simp [get_table, _get_table_entity, singleEntityDriver, table_from_entity_guid_free]

/-- A minimal well-formed entity: both required sections present. -/
def wfEntity : JVal :=
  .obj [("attributes", .obj []), ("relationshipAttributes", .obj [])]

/-- The Table that get_table yields for wfEntity under info0. -/
def wfTable : Table :=
  { database := "TEST_ENTITY", cluster := "TEST_CLUSTER", schema := "TEST_DB"
  , name := "TEST_TABLE", tags := [], description := .null
  , owners := [{ email := .null }], columns := [], last_updated_timestamp := .null }

/-- Witness for C8 at a concrete well-formed entity. -/
theorem claim8_identity_from_info_no_guid_witness :
    (wfTable.database = info0.entity ∧ wfTable.cluster = info0.cluster ∧
     wfTable.schema = info0.db ∧ wfTable.name = info0.name) ∧
    get_table cfg0 (singleEntityDriver (wfEntity.setKey "guid" (.str "g77")) []) "t1" info0 =
      get_table cfg0 (singleEntityDriver wfEntity []) "t1" info0 :=
  ⟨claim8_identity_from_info_no_guid.1 cfg0 (singleEntityDriver wfEntity []) "t1" info0
     wfTable rfl,
   claim8_identity_from_info_no_guid.2 cfg0 wfEntity [] (.str "g77") "t1" info0⟩

/-- C7: put_column_description issues a backend update scoped to the single
description attribute of the column entity, so applying that update changes
no other attribute of the stored column entity and no other top-level
section of it. -/
theorem claim7_column_write_scoped (d : Driver) (column_id descr : String)
    (ent : EntityResponse) (attrs : JVal)
    (hent : d.entity_guid (.str column_id) = .ok ent)
    (hattrs : ent.entity.getKey "attributes" = some attrs) :
    ∃ cmd, put_column_description d column_id descr = .ok cmd ∧
      cmd.attributeScope = some "description" ∧
      (∀ k, k ≠ "description" →
        ((applyUpdate ent.entity cmd).getKey "attributes").bind (fun a => a.getKey k) =
        (ent.entity.getKey "attributes").bind (fun a => a.getKey k)) ∧
      (∀ k, k ≠ "attributes" →
        (applyUpdate ent.entity cmd).getKey k = ent.entity.getKey k) := by
  obtain ⟨fields, hfe⟩ := exists_obj_of_getKey ent.entity "attributes" attrs hattrs
  refine ⟨{ entity := ent.entity.setKey "attributes" (attrs.setKey "description" (.str descr))
          , attributeScope := some "description" }, ?_, rfl, ?_, ?_⟩
  · simp [put_column_description, _get_column, hent, hattrs]
  · intro k hk
    rw [hfe] at hattrs ⊢
    cases attrs with
    | obj afields =>
        simp [applyUpdate, getKey_setKey_self_obj, hattrs,
              getKey_setKey_ne (JVal.obj afields) "description" k (.str descr) hk]
    | null => simp [applyUpdate, JVal.setKey, JVal.getKey, lookupA_setAssoc_self]
    | str s => simp [applyUpdate, JVal.setKey, JVal.getKey, lookupA_setAssoc_self]
    | int n => simp [applyUpdate, JVal.setKey, JVal.getKey, lookupA_setAssoc_self]
    | arr xs => simp [applyUpdate, JVal.setKey, JVal.getKey, lookupA_setAssoc_self]
  · intro k hk
    rw [hfe] at hattrs ⊢
    cases attrs with
    | obj afields =>
        simp [applyUpdate, getKey_setKey_self_obj, hattrs,
              getKey_setKey_ne (JVal.obj fields) "attributes" k _ hk]
    | null => simp [applyUpdate, JVal.setKey, JVal.getKey, lookupA_setAssoc_self]
    | str s => simp [applyUpdate, JVal.setKey, JVal.getKey, lookupA_setAssoc_self]
    | int n => simp [applyUpdate, JVal.setKey, JVal.getKey, lookupA_setAssoc_self]
    | arr xs => simp [applyUpdate, JVal.setKey, JVal.getKey, lookupA_setAssoc_self]

/-- A driver holding one concrete column entity. -/
def colDriver : Driver :=
  singleEntityDriver
    (.obj [("guid", .str "c1"),
           ("attributes", .obj [("qualifiedName", .str "colname"),
                                ("type", .str "Managed"),
                                ("description", .str "old"),
                                ("position", .int 1)])]) []

/-- Witness for C7 at a concrete column entity. -/
theorem claim7_column_write_scoped_witness :
    ∃ cmd, put_column_description colDriver "c1" "new descr" = .ok cmd ∧
      cmd.attributeScope = some "description" ∧
      (∀ k, k ≠ "description" →
        ((applyUpdate (.obj [("guid", .str "c1"),
           ("attributes", .obj [("qualifiedName", .str "colname"),
                                ("type", .str "Managed"),
                                ("description", .str "old"),
                                ("position", .int 1)])]) cmd).getKey "attributes").bind
            (fun a => a.getKey k) =
        ((JVal.obj [("guid", .str "c1"),
           ("attributes", .obj [("qualifiedName", .str "colname"),
                                ("type", .str "Managed"),
                                ("description", .str "old"),
                                ("position", .int 1)])]).getKey "attributes").bind
            (fun a => a.getKey k)) ∧
      (∀ k, k ≠ "attributes" →
        (applyUpdate (.obj [("guid", .str "c1"),
           ("attributes", .obj [("qualifiedName", .str "colname"),
                                ("type", .str "Managed"),
                                ("description", .str "old"),
                                ("position", .int 1)])]) cmd).getKey k =
        (JVal.obj [("guid", .str "c1"),
           ("attributes", .obj [("qualifiedName", .str "colname"),
                                ("type", .str "Managed"),
                                ("description", .str "old"),
                                ("position", .int 1)])]).getKey k) :=
  claim7_column_write_scoped colDriver "c1" "new descr"
    { entity := .obj [("guid", .str "c1"),
        ("attributes", .obj [("qualifiedName", .str "colname"),
                             ("type", .str "Managed"),
                             ("description", .str "old"),
                             ("position", .int 1)])], referredEntities := [] }
    (.obj [("qualifiedName", .str "colname"), ("type", .str "Managed"),
           ("description", .str "old"), ("position", .int 1)]) rfl rfl

/-- A driver whose entity lacks the attributes section. -/
def noAttrsDriver : Driver :=
  singleEntityDriver (.obj [("relationshipAttributes", .obj [])]) []

/-- A driver whose basic search is rejected with BadRequest. -/
def searchRejectedDriver : Driver :=
  { entity_guid := fun _ => .ok { entity := .obj [], referredEntities := [] }
  , entity_bulk := fun _ => .ok []
  , search_basic_create := fun _ => .error (.badRequest "Boom")
  , entity_bulk_classification_create := fun _ => .ok ()
  , classification_delete := fun _ _ => .ok ()
  , typedefs := .ok [] }

/-- C3 counterexample: the malformed-entity failure of get_table and the
search-rejection failure of get_popular_tables surface as one and the same
error kind (the atlasclient BadRequest), so the claimed three-way
distinction does not hold on the code: only NotFound is distinguishable. -/
theorem claim3_counterexample :
    errKind (get_table cfg0 noAttrsDriver "t1" info0) = some ErrKind.badRequest ∧
    errKind (get_popular_tables cfg0 searchRejectedDriver 10) = some ErrKind.badRequest ∧
    errKind (get_table cfg0 noAttrsDriver "t1" info0) =
      errKind (get_popular_tables cfg0 searchRejectedDriver 10) :=
  ⟨rfl, rfl, rfl⟩

/-- C3 amended: for an entity lacking its attributes or its
relationshipAttributes section, get_table fails with the atlasclient
BadRequest, a kind distinct from NotFound; this is the same kind as the
error get_popular_tables raises when the backend search is rejected, so the
caller can distinguish two kinds, not three. -/
theorem claim3_missing_sections_bad_request (cfg : AtlasConfig) (d d2 : Driver)
    (table_id m : String) (info : TableInfo) (ent : EntityResponse) (n : Nat)
    (hent : d.entity_guid (.str table_id) = .ok ent)
    (hmiss : ent.entity.getKey "attributes" = none ∨
             ent.entity.getKey "relationshipAttributes" = none)
    (hsearch : d2.search_basic_create (popular_search_params cfg) =
      .error (.badRequest m)) :
    errKind (get_table cfg d table_id info) = some ErrKind.badRequest ∧
    ErrKind.badRequest ≠ ErrKind.notFound ∧
    errKind (get_popular_tables cfg d2 n) = some ErrKind.badRequest := by
  refine ⟨?_, by decide, ?_⟩
  · have htfe : table_from_entity cfg info ent = none := by
      unfold table_from_entity
      rcases hmiss with h | h
      · simp [h]
      · cases ha : ent.entity.getKey "attributes" with
        | none => simp [ha]
        | some attrs => simp [ha, h]
    simp [get_table, _get_table_entity, hent, htfe, errKind, ProxyError.kind]
  · simp [get_popular_tables, hsearch, errKind, ProxyError.kind]

/-- Witness for C3 amended, at the drivers of the counterexample. -/
theorem claim3_missing_sections_bad_request_witness :
    errKind (get_table cfg0 noAttrsDriver "t2" info0) = some ErrKind.badRequest ∧
    ErrKind.badRequest ≠ ErrKind.notFound ∧
    errKind (get_popular_tables cfg0 searchRejectedDriver 5) = some ErrKind.badRequest :=
  claim3_missing_sections_bad_request cfg0 noAttrsDriver searchRejectedDriver
    "t2" "Boom" info0
    { entity := .obj [("relationshipAttributes", .obj [])], referredEntities := [] }
    5 rfl (Or.inl rfl) rfl

/-- A table entity carrying the same classification name twice, with one
column. -/
def dupTagEntity : JVal :=
  .obj [("guid", .str "tguid"),
        ("updateTime", .int 123),
        ("attributes", .obj [("description", .str "Dummy"),
                             ("owner", .str "dummy@email.com")]),
        ("relationshipAttributes", .obj [("columns", .arr [.obj [("guid", .str "c1")]])]),
        ("classifications", .arr [.obj [("typeName", .str "PII")],
                                  .obj [("typeName", .str "PII")]])]

/-- The referred column entity of dupTagEntity. -/
def dupTagReferred : List (String × JVal) :=
  [("c1", .obj [("attributes", .obj [("qualifiedName", .str "colname"),
                                     ("type", .str "Managed"),
                                     ("description", .str "cd"),
                                     ("position", .int 1)])])]

/-- A driver serving dupTagEntity. -/
def dupTagDriver : Driver :=
  singleEntityDriver dupTagEntity dupTagReferred

/-- C1 counterexample: an entity carrying the classification name PII twice
yields a Table with two PII Tags, not the single Tag the claim demands. -/
theorem claim1_counterexample :
    (get_table cfg0 dupTagDriver "t1" info0).map (fun t => t.tags.map Tag.tag_name) =
      .ok [.str "PII", .str "PII"] ∧
    (get_table cfg0 dupTagDriver "t1" info0).map (fun t => t.tags.length) = .ok 2 :=
  ⟨rfl, rfl⟩

/-- C1 amended: for a well-formed entity, get_table returns a Table whose
columns are the resolved relationship column references in exactly their
list order, and whose tags carry one Tag per classification entry of the raw
entity, in entry order, a duplicated classification name yielding duplicated
Tags (no set semantics). -/
theorem claim1_columns_in_order_tags_per_entry (cfg : AtlasConfig) (d : Driver)
    (table_id : String) (info : TableInfo) (te : EntityResponse)
    (attrs rel_attrs : JVal) (cols : List Column)
    (hent : d.entity_guid (.str table_id) = .ok te)
    (ha : te.entity.getKey "attributes" = some attrs)
    (hr : te.entity.getKey "relationshipAttributes" = some rel_attrs)
    (hc : buildColumns cfg te.referredEntities
            (((rel_attrs.getD "columns" .null).pyOr (.arr [])).asList) = some cols) :
    ∃ t, get_table cfg d table_id info = .ok t ∧
      t.tags = (((te.entity.getD "classifications" .null).pyOr (.arr [])).asList).map mkTag ∧
      t.tags.length =
        (((te.entity.getD "classifications" .null).pyOr (.arr [])).asList).length ∧
      t.columns = cols ∧
      cols.length = (((rel_attrs.getD "columns" .null).pyOr (.arr [])).asList).length ∧
      (∀ i (hi : i < (((rel_attrs.getD "columns" .null).pyOr (.arr [])).asList).length)
         (hi2 : i < cols.length),
        buildColumn cfg te.referredEntities
            ((((rel_attrs.getD "columns" .null).pyOr (.arr [])).asList).get ⟨i, hi⟩) =
          some (cols.get ⟨i, hi2⟩)) := by
  refine ⟨{ database := info.entity, cluster := info.cluster, schema := info.db
          , name := info.name
          , tags := (((te.entity.getD "classifications" .null).pyOr (.arr [])).asList).map mkTag
          , description := attrs.getD "description" .null
          , owners := [{ email := attrs.getD "owner" .null }]
          , columns := cols
          , last_updated_timestamp := te.entity.getD "updateTime" .null },
        ?_, rfl, by simp, rfl,
        buildColumns_length cfg _ _ _ hc, buildColumns_get cfg _ _ _ hc⟩
  simp [get_table, _get_table_entity, hent, table_from_entity, ha, hr, hc]

/-- The column list get_table builds for dupTagEntity. -/
def dupTagCols : List Column :=
  [{ name := .str "colname", description := .str "cd"
   , col_type := .str "Managed", sort_order := .int 1 }]

/-- The relationshipAttributes section of dupTagEntity. -/
def dupTagRel : JVal :=
  .obj [("columns", .arr [.obj [("guid", .str "c1")]])]

/-- The attributes section of dupTagEntity. -/
def dupTagAttrs : JVal :=
  .obj [("description", .str "Dummy"), ("owner", .str "dummy@email.com")]

/-- Witness for C1 amended at the concrete entity dupTagEntity. -/
theorem claim1_columns_in_order_tags_per_entry_witness :
    ∃ t, get_table cfg0 dupTagDriver "t1" info0 = .ok t ∧
      t.tags =
        (((dupTagEntity.getD "classifications" .null).pyOr (.arr [])).asList).map mkTag ∧
      t.tags.length =
        (((dupTagEntity.getD "classifications" .null).pyOr (.arr [])).asList).length ∧
      t.columns = dupTagCols ∧
      dupTagCols.length =
        (((dupTagRel.getD "columns" .null).pyOr (.arr [])).asList).length ∧
      (∀ i (hi : i < (((dupTagRel.getD "columns" .null).pyOr (.arr [])).asList).length)
         (hi2 : i < dupTagCols.length),
        buildColumn cfg0 dupTagReferred
            ((((dupTagRel.getD "columns" .null).pyOr (.arr [])).asList).get ⟨i, hi⟩) =
          some (dupTagCols.get ⟨i, hi2⟩)) :=
  claim1_columns_in_order_tags_per_entry cfg0 dupTagDriver "t1" info0
    { entity := dupTagEntity, referredEntities := dupTagReferred }
    dupTagAttrs dupTagRel dupTagCols rfl rfl rfl rfl

/-- The database field of a PopularTable is always the typeName of its
search result. -/
theorem mkPopularTable_database (cfg : AtlasConfig) (dict : List (String × BulkEntity))
    (e : SearchEntity) : (mkPopularTable cfg dict e).database = e.typeName := by
  unfold mkPopularTable
  split <;> rfl

/-- The name field of a PopularTable is always the configured name attribute
of its search result. -/
theorem mkPopularTable_name (cfg : AtlasConfig) (dict : List (String × BulkEntity))
    (e : SearchEntity) :
    (mkPopularTable cfg dict e).name = e.attributes.getD cfg.NAME_ATTRIBUTE .null := by
  unfold mkPopularTable
  split <;> rfl

/-- A missing or unresolved database reference yields empty cluster and
schema. -/
theorem mkPopularTable_unresolved (cfg : AtlasConfig) (dict : List (String × BulkEntity))
    (e : SearchEntity)
    (h : (db_guid_of cfg.DB_ATTRIBUTE e).bind (fun g => lookupA dict g) = none) :
    (mkPopularTable cfg dict e).cluster = JVal.str "" ∧
    (mkPopularTable cfg dict e).schema = JVal.str "" := by
  unfold mkPopularTable
  simp [h]

/-- A resolved database reference yields its cluster and schema. -/
theorem mkPopularTable_resolved (cfg : AtlasConfig) (dict : List (String × BulkEntity))
    (e : SearchEntity) (g : String) (dbe : BulkEntity)
    (hg : db_guid_of cfg.DB_ATTRIBUTE e = some g) (hl : lookupA dict g = some dbe) :
    (mkPopularTable cfg dict e).cluster = dbe.attributes.getD "clusterName" .null ∧
    (mkPopularTable cfg dict e).schema = dbe.attributes.getD cfg.NAME_ATTRIBUTE .null := by
  unfold mkPopularTable
  simp [hg, hl]

/-- Indexing a mapped list indexes the original. -/
theorem get_map_helper {α β : Type} (f : α → β) (l : List α) (i : Nat)
    (hi : i < l.length) (hi2 : i < (l.map f).length) :
    (l.map f).get ⟨i, hi2⟩ = f (l.get ⟨i, hi⟩) := by
  simp

/-- C5: get_popular_tables builds exactly one PopularTable per search result
in result order, the num_entries argument never changes the result, and a
result whose database reference is missing or unresolved yields empty
cluster and schema instead of a failure. -/
theorem claim5_one_per_result_limit_unenforced (cfg : AtlasConfig) (d : Driver)
    (n1 n2 : Nat) (coll : SearchCollection) (batches : List EntityBatch)
    (hs : d.search_basic_create (popular_search_params cfg) = .ok coll)
    (hb : d.entity_bulk (rel_attribute_ids cfg.DB_ATTRIBUTE coll.entities) = .ok batches) :
    get_popular_tables cfg d n1 = get_popular_tables cfg d n2 ∧
    ∃ ts, get_popular_tables cfg d n1 =
        .ok (ts, [rel_attribute_ids cfg.DB_ATTRIBUTE coll.entities]) ∧
      ts.length = coll.entities.length ∧
      (∀ i (hi : i < coll.entities.length) (hi2 : i < ts.length),
        (ts.get ⟨i, hi2⟩).database = (coll.entities.get ⟨i, hi⟩).typeName ∧
        (ts.get ⟨i, hi2⟩).name =
          (coll.entities.get ⟨i, hi⟩).attributes.getD cfg.NAME_ATTRIBUTE .null) ∧
      (∀ i (hi : i < coll.entities.length) (hi2 : i < ts.length),
        (db_guid_of cfg.DB_ATTRIBUTE (coll.entities.get ⟨i, hi⟩)).bind
            (fun g => lookupA (batches_to_dict batches) g) = none →
        (ts.get ⟨i, hi2⟩).cluster = JVal.str "" ∧
        (ts.get ⟨i, hi2⟩).schema = JVal.str "") := by
  refine ⟨rfl, coll.entities.map (mkPopularTable cfg (batches_to_dict batches)),
          ?_, by simp, ?_, ?_⟩
  · simp [get_popular_tables, hs, _get_rel_attributes_dict, hb, Except.map]
  · intro i hi hi2
    rw [get_map_helper _ _ i hi hi2]
    exact ⟨mkPopularTable_database cfg _ _, mkPopularTable_name cfg _ _⟩
  · intro i hi hi2 h
    rw [get_map_helper _ _ i hi hi2]
    exact mkPopularTable_unresolved cfg _ _ h

/-- A driver whose search yields one entity without a database reference and
one entity whose database reference resolves to nothing. -/
def noDbDriver : Driver :=
  { entity_guid := fun _ => .error (.other "unused")
  , entity_bulk := fun _ => .ok []
  , search_basic_create := fun _ => .ok { entities :=
      [{ typeName := "TEST_ENTITY"
       , attributes := .obj [("qualifiedName", .str "Table1"),
                             ("description", .str "D1")] },
       { typeName := "TEST_ENTITY"
       , attributes := .obj [("qualifiedName", .str "Table2"),
                             ("description", .str "D2"),
                             ("db", .obj [("guid", .str "ghost")])] }] }
  , entity_bulk_classification_create := fun _ => .ok ()
  , classification_delete := fun _ _ => .ok ()
  , typedefs := .ok [] }

/-- The search collection noDbDriver returns. -/
def noDbColl : SearchCollection :=
  { entities :=
      [{ typeName := "TEST_ENTITY"
       , attributes := .obj [("qualifiedName", .str "Table1"),
                             ("description", .str "D1")] },
       { typeName := "TEST_ENTITY"
       , attributes := .obj [("qualifiedName", .str "Table2"),
                             ("description", .str "D2"),
                             ("db", .obj [("guid", .str "ghost")])] }] }

/-- Witness for C5 at a concrete search result with a missing and an
unresolved database reference. -/
theorem claim5_one_per_result_limit_unenforced_witness :
    get_popular_tables cfg0 noDbDriver 2 = get_popular_tables cfg0 noDbDriver 99 ∧
    ∃ ts, get_popular_tables cfg0 noDbDriver 2 =
        .ok (ts, [rel_attribute_ids cfg0.DB_ATTRIBUTE noDbColl.entities]) ∧
      ts.length = noDbColl.entities.length ∧
      (∀ i (hi : i < noDbColl.entities.length) (hi2 : i < ts.length),
        (ts.get ⟨i, hi2⟩).database = (noDbColl.entities.get ⟨i, hi⟩).typeName ∧
        (ts.get ⟨i, hi2⟩).name =
          (noDbColl.entities.get ⟨i, hi⟩).attributes.getD cfg0.NAME_ATTRIBUTE .null) ∧
      (∀ i (hi : i < noDbColl.entities.length) (hi2 : i < ts.length),
        (db_guid_of cfg0.DB_ATTRIBUTE (noDbColl.entities.get ⟨i, hi⟩)).bind
            (fun g => lookupA (batches_to_dict []) g) = none →
        (ts.get ⟨i, hi2⟩).cluster = JVal.str "" ∧
        (ts.get ⟨i, hi2⟩).schema = JVal.str "") :=
  claim5_one_per_result_limit_unenforced cfg0 noDbDriver 2 99 noDbColl [] rfl rfl

/-- The attributes of the sample database entity. -/
def dbEntityAttrs : JVal :=
  .obj [("qualifiedName", .str "TEST_DB"), ("clusterName", .str "TEST_CLUSTER")]

/-- A driver whose search yields two results referencing the same database
entity, and whose bulk fetch resolves it. -/
def dupDbDriver : Driver :=
  { entity_guid := fun _ => .error (.other "unused")
  , entity_bulk := fun _ =>
      .ok [{ entities := [{ guid := "dbg1", attributes := dbEntityAttrs }] }]
  , search_basic_create := fun _ => .ok { entities :=
      [{ typeName := "TEST_ENTITY"
       , attributes := .obj [("qualifiedName", .str "Table1"),
                             ("db", .obj [("guid", .str "dbg1")])] },
       { typeName := "TEST_ENTITY"
       , attributes := .obj [("qualifiedName", .str "Table2"),
                             ("db", .obj [("guid", .str "dbg1")])] }] }
  , entity_bulk_classification_create := fun _ => .ok ()
  , classification_delete := fun _ _ => .ok ()
  , typedefs := .ok [] }

/-- C4 counterexample: two search results referencing the same database make
the single bulk fetch carry that database guid twice, not once, so the guid
argument is not the unique set of referenced ids. -/
theorem claim4_counterexample :
    (get_popular_tables cfg0 dupDbDriver 2).map (fun r => r.2) =
      .ok [["dbg1", "dbg1"]] ∧
    List.count "dbg1" ["dbg1", "dbg1"] = 2 ∧
    (["dbg1", "dbg1"] : List String) ≠ ["dbg1"] :=
  ⟨rfl, rfl, by decide⟩

/-- C4 amended: get_popular_tables issues exactly one bulk entity fetch,
whose guid argument lists the database ids referenced by the results in
result order with duplicates kept (a database referenced by two tables
appears once per referencing table); when two results reference the same
resolved database, both returned PopularTables carry that database cluster
and schema. -/
theorem claim4_single_bulk_call_join (cfg : AtlasConfig) (d : Driver) (n : Nat)
    (coll : SearchCollection) (batches : List EntityBatch)
    (hs : d.search_basic_create (popular_search_params cfg) = .ok coll)
    (hb : d.entity_bulk (rel_attribute_ids cfg.DB_ATTRIBUTE coll.entities) = .ok batches) :
    ∃ ts, get_popular_tables cfg d n =
        .ok (ts, [rel_attribute_ids cfg.DB_ATTRIBUTE coll.entities]) ∧
      ts.length = coll.entities.length ∧
      (∀ i j (hi : i < coll.entities.length) (hj : j < coll.entities.length)
         (hi2 : i < ts.length) (hj2 : j < ts.length) (g : String) (dbe : BulkEntity),
        db_guid_of cfg.DB_ATTRIBUTE (coll.entities.get ⟨i, hi⟩) = some g →
        db_guid_of cfg.DB_ATTRIBUTE (coll.entities.get ⟨j, hj⟩) = some g →
        lookupA (batches_to_dict batches) g = some dbe →
        ((ts.get ⟨i, hi2⟩).cluster = dbe.attributes.getD "clusterName" .null ∧
         (ts.get ⟨j, hj2⟩).cluster = dbe.attributes.getD "clusterName" .null ∧
         (ts.get ⟨i, hi2⟩).schema = dbe.attributes.getD cfg.NAME_ATTRIBUTE .null ∧
         (ts.get ⟨j, hj2⟩).schema = dbe.attributes.getD cfg.NAME_ATTRIBUTE .null)) := by
  refine ⟨coll.entities.map (mkPopularTable cfg (batches_to_dict batches)),
          ?_, by simp, ?_⟩
  · simp [get_popular_tables, hs, _get_rel_attributes_dict, hb, Except.map]
  · intro i j hi hj hi2 hj2 g dbe hgi hgj hl
    rw [get_map_helper _ _ i hi hi2, get_map_helper _ _ j hj hj2]
    obtain ⟨hci, hsi⟩ := mkPopularTable_resolved cfg _ _ g dbe hgi hl
    obtain ⟨hcj, hsj⟩ := mkPopularTable_resolved cfg _ _ g dbe hgj hl
    exact ⟨hci, hcj, hsi, hsj⟩

/-- The search collection dupDbDriver returns. -/
def dupDbColl : SearchCollection :=
  { entities :=
      [{ typeName := "TEST_ENTITY"
       , attributes := .obj [("qualifiedName", .str "Table1"),
                             ("db", .obj [("guid", .str "dbg1")])] },
       { typeName := "TEST_ENTITY"
       , attributes := .obj [("qualifiedName", .str "Table2"),
                             ("db", .obj [("guid", .str "dbg1")])] }] }

/-- The single batch dupDbDriver delivers. -/
def dupDbBatches : List EntityBatch :=
  [{ entities := [{ guid := "dbg1", attributes := dbEntityAttrs }] }]

/-- Witness for C4 amended at the shared-database fixture. -/
theorem claim4_single_bulk_call_join_witness :
    ∃ ts, get_popular_tables cfg0 dupDbDriver 2 =
        .ok (ts, [rel_attribute_ids cfg0.DB_ATTRIBUTE dupDbColl.entities]) ∧
      ts.length = dupDbColl.entities.length ∧
      (∀ i j (hi : i < dupDbColl.entities.length) (hj : j < dupDbColl.entities.length)
         (hi2 : i < ts.length) (hj2 : j < ts.length) (g : String) (dbe : BulkEntity),
        db_guid_of cfg0.DB_ATTRIBUTE (dupDbColl.entities.get ⟨i, hi⟩) = some g →
        db_guid_of cfg0.DB_ATTRIBUTE (dupDbColl.entities.get ⟨j, hj⟩) = some g →
        lookupA (batches_to_dict dupDbBatches) g = some dbe →
        ((ts.get ⟨i, hi2⟩).cluster = dbe.attributes.getD "clusterName" .null ∧
         (ts.get ⟨j, hj2⟩).cluster = dbe.attributes.getD "clusterName" .null ∧
         (ts.get ⟨i, hi2⟩).schema = dbe.attributes.getD cfg0.NAME_ATTRIBUTE .null ∧
         (ts.get ⟨j, hj2⟩).schema = dbe.attributes.getD cfg0.NAME_ATTRIBUTE .null)) :=
  claim4_single_bulk_call_join cfg0 dupDbDriver 2 dupDbColl dupDbBatches rfl rfl

/-- C10: each batch of the bulk collection rebinds the dictionary of
_get_rel_attributes_dict, so with several batches only the final batch
survives, and get_popular_tables reports empty cluster and schema for any
database entity delivered in an earlier batch only. -/
theorem claim10_last_batch_wins (cfg : AtlasConfig) (d : Driver) (n : Nat)
    (coll : SearchCollection) (bs : List EntityBatch) (b : EntityBatch)
    (hs : d.search_basic_create (popular_search_params cfg) = .ok coll)
    (hb : d.entity_bulk (rel_attribute_ids cfg.DB_ATTRIBUTE coll.entities) =
      .ok (bs ++ [b])) :
    _get_rel_attributes_dict d coll.entities cfg.DB_ATTRIBUTE = .ok (batch_dict b) ∧
    ∃ ts, get_popular_tables cfg d n =
        .ok (ts, [rel_attribute_ids cfg.DB_ATTRIBUTE coll.entities]) ∧
      ts.length = coll.entities.length ∧
      (∀ i (hi : i < coll.entities.length) (hi2 : i < ts.length) (g : String),
        db_guid_of cfg.DB_ATTRIBUTE (coll.entities.get ⟨i, hi⟩) = some g →
        lookupA (batch_dict b) g = none →
        (ts.get ⟨i, hi2⟩).cluster = JVal.str "" ∧
        (ts.get ⟨i, hi2⟩).schema = JVal.str "") := by
  constructor
  · simp [_get_rel_attributes_dict, hb, Except.map, batches_to_dict_concat]
  · refine ⟨coll.entities.map (mkPopularTable cfg (batches_to_dict (bs ++ [b]))),
            ?_, by simp, ?_⟩
    · simp [get_popular_tables, hs, _get_rel_attributes_dict, hb, Except.map]
    · intro i hi hi2 g hg hnone
      rw [get_map_helper _ _ i hi hi2]
      refine mkPopularTable_unresolved cfg _ _ ?_
      rw [hg]
      simp [batches_to_dict_concat, hnone]

/-- A driver delivering the resolving batch first and an unrelated batch
last, so the needed database entity sits in an earlier batch only. -/
def twoBatchDriver : Driver :=
  { entity_guid := fun _ => .error (.other "unused")
  , entity_bulk := fun _ =>
      .ok [{ entities := [{ guid := "dbg1", attributes := dbEntityAttrs }] },
           { entities := [{ guid := "dbg2", attributes := dbEntityAttrs }] }]
  , search_basic_create := fun _ => .ok { entities :=
      [{ typeName := "TEST_ENTITY"
       , attributes := .obj [("qualifiedName", .str "Table1"),
                             ("db", .obj [("guid", .str "dbg1")])] }] }
  , entity_bulk_classification_create := fun _ => .ok ()
  , classification_delete := fun _ _ => .ok ()
  , typedefs := .ok [] }

/-- The search collection twoBatchDriver returns. -/
def twoBatchColl : SearchCollection :=
  { entities :=
      [{ typeName := "TEST_ENTITY"
       , attributes := .obj [("qualifiedName", .str "Table1"),
                             ("db", .obj [("guid", .str "dbg1")])] }] }

/-- Witness for C10 at a two-batch bulk response whose first batch alone
resolves the referenced database. -/
theorem claim10_last_batch_wins_witness :
    _get_rel_attributes_dict twoBatchDriver twoBatchColl.entities cfg0.DB_ATTRIBUTE =
      .ok (batch_dict { entities := [{ guid := "dbg2", attributes := dbEntityAttrs }] }) ∧
    ∃ ts, get_popular_tables cfg0 twoBatchDriver 1 =
        .ok (ts, [rel_attribute_ids cfg0.DB_ATTRIBUTE twoBatchColl.entities]) ∧
      ts.length = twoBatchColl.entities.length ∧
      (∀ i (hi : i < twoBatchColl.entities.length) (hi2 : i < ts.length) (g : String),
        db_guid_of cfg0.DB_ATTRIBUTE (twoBatchColl.entities.get ⟨i, hi⟩) = some g →
        lookupA (batch_dict { entities := [{ guid := "dbg2", attributes := dbEntityAttrs }] })
          g = none →
        (ts.get ⟨i, hi2⟩).cluster = JVal.str "" ∧
        (ts.get ⟨i, hi2⟩).schema = JVal.str "") :=
  claim10_last_batch_wins cfg0 twoBatchDriver 1 twoBatchColl
    [{ entities := [{ guid := "dbg1", attributes := dbEntityAttrs }] }]
    { entities := [{ guid := "dbg2", attributes := dbEntityAttrs }] } rfl rfl

end Amundsen
